import Mathlib

/-!
Verification of `SessionSettingsBar`
(`js_modules/dagster-ui/packages/ui-core/src/launchpad/SessionSettingsBar.tsx`).

The component is a `styled.div` template literal interpolating two design
tokens, `Colors.Gray200` and `Colors.White`:

  color: white;
  display: flex;
  position: relative;
  border-bottom: 1px solid ${Colors.Gray200};
  background: ${Colors.White};
  align-items: center;
  height: 47px;
  padding: 8px 10px;

We embed the template as the ordered list of CSS declarations it contains,
parameterised by the two tokens, together with the rendered CSS text laid out
exactly as in the template literal.
-/

namespace DagsterUI

/-- The two palette tokens imported from `@dagster-io/ui-components` and
interpolated by the template. -/
structure Colors where
  Gray200 : String
  White : String
deriving Repr, DecidableEq

/-- The CSS declarations of the `styled.div` template literal, in source
order, as (property, value) pairs. The only non-literal parts of the template
are the two token interpolations. -/
def sessionSettingsBarDecls (C : Colors) : List (String × String) :=
  [("color", "white"),
   ("display", "flex"),
   ("position", "relative"),
   ("border-bottom", "1px solid " ++ C.Gray200),
   ("background", C.White),
   ("align-items", "center"),
   ("height", "47px"),
   ("padding", "8px 10px")]

/-- One declaration rendered the way the template literal lays it out:
two spaces of indentation, `property: value;`, newline. -/
def renderDecl (d : String × String) : String :=
  "  " ++ d.1 ++ ": " ++ d.2 ++ ";\n"

/-- The full CSS text of the template literal: a leading newline (the
template starts right after the opening backquote) followed by the rendered
declarations. -/
def sessionSettingsBarCss (C : Colors) : String :=
  "\n" ++ String.join ((sessionSettingsBarDecls C).map renderDecl)

/-- Everything a particular render could differ in besides the palette:
an index distinguishing repeated renders, and the children passed to the
element. The template literal references none of these. -/
structure RenderContext where
  renderIndex : Nat
  children : List String
deriving Repr, DecidableEq

/-- A render of `SessionSettingsBar`: the template interpolates only the two
color tokens, so the produced style ignores the render context. -/
def render (C : Colors) (_ctx : RenderContext) : String :=
  sessionSettingsBarCss C

/-- The effective `flex-direction` under CSS semantics: the declared value
when one is present, otherwise the CSS initial value `row`. -/
def effectiveFlexDirection (decls : List (String × String)) : String :=
  (List.lookup "flex-direction" decls).getD "row"

/-- Split a character list at the spaces. -/
def splitOnSpaceAux : List Char → List (List Char)
  | [] => [[]]
  | c :: rest =>
    let r := splitOnSpaceAux rest
    if c = ' ' then [] :: r
    else
      match r with
      | [] => [c] :: []
      | g :: gs => (c :: g) :: gs

/-- Split a string into its space-separated components. -/
def splitOnSpace (s : String) : List String :=
  (splitOnSpaceAux s.data).map fun g => ⟨g⟩

/-- CSS `padding` shorthand expansion to (top, right, bottom, left):
one value applies to all sides; two values are vertical then horizontal;
three are top, horizontal, bottom; four are top, right, bottom, left. -/
def expandPaddingShorthand (v : String) : Option (String × String × String × String) :=
  match splitOnSpace v with
  | [a] => some (a, a, a, a)
  | [a, b] => some (a, b, a, b)
  | [a, b, c] => some (a, b, c, b)
  | [a, b, c, d] => some (a, b, c, d)
  | _ => none

/-- Read a decimal digit sequence as a natural number. -/
def digitsToNat? (ds : List Char) : Option Nat :=
  if ds = [] then none
  else
    ds.foldl
      (fun acc c =>
        acc.bind fun n => if c.isDigit then some (n * 10 + (c.toNat - 48)) else none)
      (some 0)

/-- Numeric value of a CSS pixel length such as `47px`. -/
def pxValue (v : String) : Option Nat :=
  match v.data.reverse with
  | 'x' :: 'p' :: ds => digitsToNat? ds.reverse
  | _ => none

/-- The two color constants the module resolves from the palette when the
style is created. -/
structure StyleEnv where
  borderColor : String
  backgroundColor : String
deriving Repr, DecidableEq

/-- Module load: the template's two interpolations are evaluated once,
resolving `Colors.Gray200` and `Colors.White`. -/
def moduleLoad (C : Colors) : StyleEnv :=
  { borderColor := C.Gray200, backgroundColor := C.White }

/-- A render as an operation on the resolved style environment: it reads the
two constants to produce the CSS text and passes the environment through
unchanged (the component has no operation that writes to it). -/
def renderWithEnv (env : StyleEnv) (_ctx : RenderContext) : String × StyleEnv :=
  (sessionSettingsBarCss { Gray200 := env.borderColor, White := env.backgroundColor }, env)

/-- The names of the eight CSS properties the template declares, in order. -/
def declaredProperties : List String :=
  ["color", "display", "position", "border-bottom", "background",
   "align-items", "height", "padding"]

end DagsterUI

namespace DagsterUI

/-- Claim C1: for every palette, the style's `border-bottom` declaration is
exactly `1px solid` followed by the `Gray200` token; and with
`Gray200 = "#B8C1CC"` (and `White = "#FFFFFF"`) the rendered CSS text
contains the exact text `border-bottom: 1px solid #B8C1CC;`. -/
theorem sessionSettingsBar_border_bottom :
    (∀ C : Colors,
      List.lookup "border-bottom" (sessionSettingsBarDecls C)
        = some ("1px solid " ++ C.Gray200)) ∧
    (∃ p s : String,
      sessionSettingsBarCss ⟨"#B8C1CC", "#FFFFFF"⟩
        = p ++ "border-bottom: 1px solid #B8C1CC;" ++ s) := by
  refine ⟨fun C => rfl,
    "\n  color: white;\n  display: flex;\n  position: relative;\n  ",
    "\n  background: #FFFFFF;\n  align-items: center;\n  height: 47px;\n  padding: 8px 10px;\n",
    ?_⟩
  rfl

/-- Claim C2: for every palette, the style's `background` declaration is
exactly the `White` token; and with `White = "#FFFFFF"` the rendered CSS
text contains the exact text `background: #FFFFFF;`. -/
theorem sessionSettingsBar_background :
    (∀ C : Colors,
      List.lookup "background" (sessionSettingsBarDecls C) = some C.White) ∧
    (∃ p s : String,
      sessionSettingsBarCss ⟨"#B8C1CC", "#FFFFFF"⟩
        = p ++ "background: #FFFFFF;" ++ s) := by
  refine ⟨fun C => rfl,
    "\n  color: white;\n  display: flex;\n  position: relative;\n  border-bottom: 1px solid #B8C1CC;\n  ",
    "\n  align-items: center;\n  height: 47px;\n  padding: 8px 10px;\n",
    ?_⟩
  rfl

/-- Claim C3: for every palette (hence every render), the style declares
`height: 47px`, whose pixel value is 47. -/
theorem sessionSettingsBar_height :
    (∀ C : Colors,
      List.lookup "height" (sessionSettingsBarDecls C) = some "47px") ∧
    pxValue "47px" = some 47 := by
  exact ⟨fun C => rfl, by decide⟩

/-- Claim C4: for every palette, the style declares `display: flex` and
`align-items: center`, and since no `flex-direction` is declared the
effective flex direction is the CSS initial value `row`. -/
theorem sessionSettingsBar_flex_row_centered :
    ∀ C : Colors,
      List.lookup "display" (sessionSettingsBarDecls C) = some "flex" ∧
      effectiveFlexDirection (sessionSettingsBarDecls C) = "row" ∧
      List.lookup "align-items" (sessionSettingsBarDecls C) = some "center" := by
  exact fun C => ⟨rfl, rfl, rfl⟩

/-- Claim C5: for every palette, the style declares `padding: 8px 10px`,
which the CSS shorthand expands to top = bottom = 8px and
right = left = 10px. -/
theorem sessionSettingsBar_padding :
    (∀ C : Colors,
      List.lookup "padding" (sessionSettingsBarDecls C) = some "8px 10px") ∧
    expandPaddingShorthand "8px 10px" = some ("8px", "10px", "8px", "10px") := by
  exact ⟨fun C => rfl, by decide⟩

/-- Claim C6: for every palette, the style declares `color: white`, so the
foreground text color is white. -/
theorem sessionSettingsBar_color_white :
    ∀ C : Colors,
      List.lookup "color" (sessionSettingsBarDecls C) = some "white" := by
  exact fun C => rfl

/-- Claim C7: for every palette, the style declares `position: relative`. -/
theorem sessionSettingsBar_position_relative :
    ∀ C : Colors,
      List.lookup "position" (sessionSettingsBarDecls C) = some "relative" := by
  exact fun C => rfl

/-- Claim C8: for a fixed palette, any two renders — whatever their render
index or children — produce byte-identical CSS text: the output is fully
determined by the two token values. -/
theorem sessionSettingsBar_deterministic :
    ∀ (C : Colors) (ctx₁ ctx₂ : RenderContext),
      render C ctx₁ = render C ctx₂ := by
  exact fun C ctx₁ ctx₂ => rfl

/-- Claim C9: the two color constants are resolved exactly once at module
load, yielding `borderColor = Gray200` and `backgroundColor = White`, and
rendering passes the resolved environment through unchanged: no operation of
the component mutates it. -/
theorem sessionSettingsBar_tokens_immutable :
    ∀ (C : Colors) (ctx : RenderContext),
      moduleLoad C = ⟨C.Gray200, C.White⟩ ∧
      (renderWithEnv (moduleLoad C) ctx).2 = moduleLoad C := by
  exact fun C ctx => ⟨rfl, rfl⟩

/-- Claim C10: the style declares exactly the eight properties `color`,
`display`, `position`, `border-bottom`, `background`, `align-items`,
`height`, `padding` — in that order — and emits no other declaration. -/
theorem sessionSettingsBar_exact_properties :
    ∀ C : Colors,
      (sessionSettingsBarDecls C).map Prod.fst = declaredProperties ∧
      (∀ p v : String, (p, v) ∈ sessionSettingsBarDecls C → p ∈ declaredProperties) := by
  intro C
  refine ⟨rfl, fun p v h => ?_⟩
  have h' : Prod.fst (p, v) ∈ (sessionSettingsBarDecls C).map Prod.fst :=
    List.mem_map_of_mem Prod.fst h
  simpa [sessionSettingsBarDecls, declaredProperties] using h'

/-- Witness for C10 at a concrete palette and declaration: `("color",
"white")` is among the declarations, and the theorem places `"color"` in the
declared-property list. -/
theorem sessionSettingsBar_exact_properties_witness :
    ("color", "white") ∈ sessionSettingsBarDecls ⟨"#B8C1CC", "#FFFFFF"⟩ ∧
    "color" ∈ declaredProperties := by
  refine ⟨by decide, ?_⟩
  exact (sessionSettingsBar_exact_properties ⟨"#B8C1CC", "#FFFFFF"⟩).2 "color" "white" (by decide)

end DagsterUI
